import Mathlib

/-!
Shallow embedding of the workflow engine of the Idea-Generator repository.

The embedding follows src/app.py (the fuller variant; src/agent.py differs only
in the router's third label, in the save node not writing `reason`, and in the
decomposer's parsing).  Python TypedDict state is a structure whose optional
fields are `Option`; LangGraph's `Annotated[Sequence[BaseMessage], operator.add]`
reducer is the append case of `merge`, every other field is overwritten; Python
exceptions raised by unguarded indexing (`state['messages'][-1]`) are modelled
with `Except PyErr`.  The LLM calls are external capabilities: their answers
appear as universally quantified data in the step relation, and the prompt text
(declared out of scope by the design document) is an abstract parameter.
-/

namespace IdeaGen

/-- Python exceptions that the embedded code can raise. -/
inductive PyErr where
  | indexError
  | keyError
  | attributeError
  deriving DecidableEq

/-- Message roles: langchain SystemMessage / HumanMessage / AIMessage / ToolMessage. -/
inductive Role where
  | system
  | human
  | ai
  | tool
  deriving DecidableEq

/-- One tool-invocation request, as stored in an AIMessage's `tool_calls` list:
`{"name": ..., "args": ..., "id": ...}` (the argument dict is kept opaque). -/
structure ToolCall where
  name : String
  args : String
  id : String
  deriving DecidableEq

/-- A langchain message.  `tool_calls = none` models a message class without the
`tool_calls` attribute (HumanMessage, ToolMessage), so `hasattr` is `isSome`;
`tool_call_id` is the ToolMessage correlation field. -/
structure Message where
  role : Role
  content : String
  tool_calls : Option (List ToolCall)
  tool_call_id : Option String
  deriving DecidableEq

/-- One record of `sub_niches` in src/app.py: a dict with title and description. -/
structure SubNiche where
  title : String
  description : String
  deriving DecidableEq

/-- The AgentState TypedDict of src/app.py (src/agent.py lacks `reason` and uses
plain strings for sub_niches; nothing below depends on that difference).
Fields other than `topic` and `messages` may be absent from the dict before the
first node writes them, hence `Option`. -/
structure AgentState where
  topic : String
  sub_niches : Option (List SubNiche)
  validated_niche : Option String
  reason : Option String
  reddit_data : Option String
  final_report : Option String
  messages : List Message
  deriving DecidableEq

/-- A partial state update as returned by a node: only the keys present in the
returned dict are `some`. -/
structure StateUpdate where
  topic : Option String
  sub_niches : Option (List SubNiche)
  validated_niche : Option String
  reason : Option String
  reddit_data : Option String
  final_report : Option String
  messages : Option (List Message)
  deriving DecidableEq

/-- The empty partial update: a node returning `{}`. -/
def emptyUpdate : StateUpdate := ⟨none, none, none, none, none, none, none⟩

/-- Last-write-wins policy for every field that is not `messages`. -/
def overwrite {α : Type} (old upd : Option α) : Option α :=
  match upd with
  | some v => some v
  | none => old

/-- LangGraph's state merge for this AgentState: each field present in the
update replaces the old value, except `messages`, whose
`Annotated[..., operator.add]` reducer concatenates the update onto the
existing sequence (an absent `messages` key contributes nothing). -/
def merge (s : AgentState) (u : StateUpdate) : AgentState where
  topic := match u.topic with | some t => t | none => s.topic
  sub_niches := overwrite s.sub_niches u.sub_niches
  validated_niche := overwrite s.validated_niche u.validated_niche
  reason := overwrite s.reason u.reason
  reddit_data := overwrite s.reddit_data u.reddit_data
  final_report := overwrite s.final_report u.final_report
  messages := s.messages ++ u.messages.getD []

/-- Python truthiness of `state.get('validated_niche')`: false when the key is
absent or the string is empty. -/
def truthy (o : Option String) : Bool :=
  match o with
  | none => false
  | some s => !(s == "")

/-- The router's guard `hasattr(last_message, 'tool_calls') and last_message.tool_calls`:
true exactly when the attribute exists and the list is non-empty. -/
def pendingToolCalls (m : Message) : Bool :=
  match m.tool_calls with
  | some (_ :: _) => true
  | _ => false

/-- Python `str.strip()`: drop leading and trailing whitespace. -/
def pyStrip (s : String) : String :=
  ⟨((s.data.dropWhile Char.isWhitespace).reverse.dropWhile Char.isWhitespace).reverse⟩

/-- HumanMessage(content=c). -/
def humanMessage (c : String) : Message := ⟨Role.human, c, none, none⟩

/-- An AIMessage as returned by `llm.bind_tools(tools).invoke(...)`: it always
has the `tool_calls` attribute, possibly the empty list. -/
def aiMessage (c : String) (tcs : List ToolCall) : Message := ⟨Role.ai, c, some tcs, none⟩

/-- ToolMessage(content=c, tool_call_id=tcid). -/
def toolMessage (c : String) (tcid : String) : Message := ⟨Role.tool, c, none, some tcid⟩

/-- An entry of the module-level `tools` list: a name and an `invoke` that either
returns output or raises (the exception text is the `Except.error` payload). -/
structure Tool where
  name : String
  invoke : String → Except String String

/-- The linear scan `for t in tools: if t.name == tool_name: ...` of call_tool_node. -/
def find_tool (tools : List Tool) (nm : String) : Option Tool :=
  tools.find? (fun t => t.name == nm)

/-- The try/except body of call_tool_node for one found tool: the tool's output,
or the synthesized error string `f"Error running tool {tool_name}: {e}"`. -/
def runTool (t : Tool) (tc : ToolCall) : String :=
  match t.invoke tc.args with
  | Except.ok out => out
  | Except.error e => "Error running tool " ++ tc.name ++ ": " ++ e

/-- The dispatch loop of call_tool_node over `last_message.tool_calls`: for each
request, look the name up in `tools`; when found, append one ToolMessage built
from the (possibly failing) invocation; when not found (`tool_to_call` stays
None), the `if tool_to_call:` guard skips the request and no message is
appended. -/
def dispatch (tools : List Tool) : List ToolCall → List Message
  | [] => []
  | tc :: rest =>
    match find_tool tools tc.name with
    | some t => toolMessage (runTool t tc) tc.id :: dispatch tools rest
    | none => dispatch tools rest

/-- The module-level collaborators a node closes over: the `tools` list and the
two instantiations of researcher_prompt_template (prompt text itself is out of
the engine's scope, so the formatters are abstract). -/
structure EnvParams where
  tools : List Tool
  validationPrompt : List SubNiche → String
  painPrompt : String → String

/-- The partial update returned by market_analyst_node in src/app.py once the
reasoner's JSON answer parsed to `ns`: `{"sub_niches": data['subniches']}` with
no emptiness check whatsoever. -/
def marketAnalystUpdate (ns : List SubNiche) : StateUpdate :=
  { emptyUpdate with sub_niches := some ns }

/-- prepare_researcher_node: when `validated_niche` is falsy, build the
validation instruction from `state['sub_niches']` (KeyError if the key is
absent); otherwise build the pain-point instruction; either way return a
one-message update. -/
def prepare_researcher_node (env : EnvParams) (s : AgentState) : Except PyErr StateUpdate :=
  if truthy s.validated_niche = false then
    match s.sub_niches with
    | none => Except.error PyErr.keyError
    | some ns =>
      Except.ok { emptyUpdate with messages := some [humanMessage (env.validationPrompt ns)] }
  else
    Except.ok { emptyUpdate with
      messages := some [humanMessage (env.painPrompt (s.validated_niche.getD ""))] }

/-- researcher_node returns `{"messages": [response]}` where response is the
LLM's AIMessage (content and tool_calls supplied by the external reasoner). -/
def researcherUpdate (c : String) (tcs : List ToolCall) : StateUpdate :=
  { emptyUpdate with messages := some [aiMessage c tcs] }

/-- call_tool_node: index `state['messages'][-1]` (IndexError when empty), read
its `tool_calls` attribute (AttributeError when the message class lacks it),
then run the dispatch loop and return the batch as the `messages` update. -/
def call_tool_node (env : EnvParams) (s : AgentState) : Except PyErr StateUpdate :=
  match s.messages.getLast? with
  | none => Except.error PyErr.indexError
  | some last =>
    match last.tool_calls with
    | none => Except.error PyErr.attributeError
    | some tcs => Except.ok { emptyUpdate with messages := some (dispatch env.tools tcs) }

/-- save_validated_niche_node of src/app.py: strip the last message's content
into `validated_niche`, set `reason`, and return `"messages": []` (src/agent.py
is identical minus the `reason` key). -/
def save_validated_niche_node (s : AgentState) : Except PyErr StateUpdate :=
  match s.messages.getLast? with
  | none => Except.error PyErr.indexError
  | some last =>
    Except.ok { emptyUpdate with
      validated_niche := some (pyStrip last.content),
      reason := some "Determined by AI researcher.",
      messages := some [] }

/-- save_pain_points_node: strip the last message's content into `reddit_data`. -/
def save_pain_points_node (s : AgentState) : Except PyErr StateUpdate :=
  match s.messages.getLast? with
  | none => Except.error PyErr.indexError
  | some last => Except.ok { emptyUpdate with reddit_data := some (pyStrip last.content) }

/-- idea_generator_node returns `{"final_report": response.content}` with the
report text supplied by the external reasoner. -/
def ideaGeneratorUpdate (r : String) : StateUpdate :=
  { emptyUpdate with final_report := some r }

/-- The conditional router of src/app.py: read `state['messages'][-1]`
(IndexError on an empty history), then first-match decision order: pending tool
calls, then falsy `validated_niche`, then the third label. -/
def router (s : AgentState) : Except PyErr String :=
  match s.messages.getLast? with
  | none => Except.error PyErr.indexError
  | some last =>
    if pendingToolCalls last then Except.ok "call_tool"
    else if truthy s.validated_niche = false then Except.ok "save_niche"
    else Except.ok "save_pain_points"

namespace Agent

/-- The router of src/agent.py: identical to the src/app.py router except that
the third branch's label is "continue_to_generator". -/
def router (s : AgentState) : Except PyErr String :=
  match s.messages.getLast? with
  | none => Except.error PyErr.indexError
  | some last =>
    if pendingToolCalls last then Except.ok "call_tool"
    else if truthy s.validated_niche = false then Except.ok "save_niche"
    else Except.ok "continue_to_generator"

end Agent

/-- The named nodes of the compiled src/app.py graph, plus the END sentinel. -/
inductive Node where
  | market_analyst
  | prepare_researcher
  | researcher
  | idea_generator
  | call_tool
  | save_niche
  | save_pain_points
  | terminal
  deriving DecidableEq

/-- A point of execution: the node about to run, and the merged state it sees. -/
abbrev Config := Node × AgentState

/-- The label-to-target dict of `add_conditional_edges("researcher", router, ...)`. -/
def condTarget : String → Option Node
  | "call_tool" => some Node.call_tool
  | "save_niche" => some Node.save_niche
  | "save_pain_points" => some Node.save_pain_points
  | _ => none

/-- One executor step of the compiled src/app.py graph: run the current node,
merge its partial update, and follow the node's (conditional) edge.  External
reasoner answers are universally quantified data; a node whose Python code
raises has no step (the run aborts). -/
inductive Step (env : EnvParams) : Config → Config → Prop where
  | market_analyst (s : AgentState) (ns : List SubNiche) :
      Step env ⟨Node.market_analyst, s⟩
        ⟨Node.prepare_researcher, merge s (marketAnalystUpdate ns)⟩
  | prepare_researcher (s : AgentState) (u : StateUpdate)
      (hu : prepare_researcher_node env s = Except.ok u) :
      Step env ⟨Node.prepare_researcher, s⟩ ⟨Node.researcher, merge s u⟩
  | researcher (s : AgentState) (c : String) (tcs : List ToolCall) (lbl : String) (nxt : Node)
      (hr : router (merge s (researcherUpdate c tcs)) = Except.ok lbl)
      (ht : condTarget lbl = some nxt) :
      Step env ⟨Node.researcher, s⟩ ⟨nxt, merge s (researcherUpdate c tcs)⟩
  | call_tool (s : AgentState) (u : StateUpdate)
      (hu : call_tool_node env s = Except.ok u) :
      Step env ⟨Node.call_tool, s⟩ ⟨Node.researcher, merge s u⟩
  | save_niche (s : AgentState) (u : StateUpdate)
      (hu : save_validated_niche_node s = Except.ok u) :
      Step env ⟨Node.save_niche, s⟩ ⟨Node.prepare_researcher, merge s u⟩
  | save_pain_points (s : AgentState) (u : StateUpdate)
      (hu : save_pain_points_node s = Except.ok u) :
      Step env ⟨Node.save_pain_points, s⟩ ⟨Node.idea_generator, merge s u⟩
  | idea_generator (s : AgentState) (r : String) :
      Step env ⟨Node.idea_generator, s⟩ ⟨Node.terminal, merge s (ideaGeneratorUpdate r)⟩

/-- Reachability along executor steps from a fixed start configuration. -/
inductive Reach (env : EnvParams) (start : Config) : Config → Prop where
  | refl : Reach env start start
  | tail (b c : Config) (hr : Reach env start b) (hs : Step env b c) : Reach env start c

/-- One server-sent event of the streaming driver. -/
inductive Event where
  | step (name : String) (data : StateUpdate)
  | done
  | error (msg : String)
  deriving DecidableEq

/-- Per-step event construction in stream_events: bookkeeping steps are emitted
with an empty data dict, every other step with its full delta. -/
def eventFor (p : String × StateUpdate) : Event :=
  if p.1 ∈ ["researcher", "call_tool", "prepare_researcher"] then Event.step p.1 emptyUpdate
  else Event.step p.1 p.2

/-- stream_events of src/app.py over the executor's step sequence: the events of
the steps that completed, then either the bare `{'step': 'done'}` marker (no
exception) or the `{'step': 'error', 'data': {'error': str(e)}}` marker when
iteration raised. -/
def streamEvents (steps : List (String × StateUpdate)) (abortMsg : Option String) : List Event :=
  match abortMsg with
  | none => steps.map eventFor ++ [Event.done]
  | some e => steps.map eventFor ++ [Event.error e]

/-- Whether an event's payload contains the `final_report` key. -/
def carriesFinalReport : Event → Bool
  | Event.step _ d => d.final_report.isSome
  | _ => false

/-! Concrete data for evaluating the definitions: a registry with one succeeding
and one failing tool, and a scripted run of the graph. -/

def demoGoodTool : Tool := ⟨"good", fun a => Except.ok ("result for " ++ a)⟩

def demoBadTool : Tool := ⟨"bad", fun _ => Except.error "boom"⟩

def demoTools : List Tool := [demoGoodTool, demoBadTool]

def goodCall : ToolCall := ⟨"good", "a", "id1"⟩

def badCall : ToolCall := ⟨"bad", "b", "id2"⟩

def goodCall2 : ToolCall := ⟨"good", "c", "id3"⟩

def demoCalls : List ToolCall := [goodCall, badCall, goodCall2]

def unknownCall : ToolCall := ⟨"nonexistent_tool", "q", "id9"⟩

def demoEnv : EnvParams := ⟨demoTools, fun _ => "VP", fun _ => "PP"⟩

/-- The initial state of a run: `{"topic": topic, "messages": []}`. -/
def st0 : AgentState := ⟨"Pets", none, none, none, none, none, []⟩

def st1 : AgentState := merge st0 (marketAnalystUpdate [])

def prepUpd1 : StateUpdate := { emptyUpdate with messages := some [humanMessage "VP"] }

def st2 : AgentState := merge st1 prepUpd1

def st3 : AgentState := merge st2 (researcherUpdate "Pet Tech" [])

def saveUpd : StateUpdate :=
  { emptyUpdate with
    validated_niche := some "Pet Tech",
    reason := some "Determined by AI researcher.",
    messages := some [] }

def st4 : AgentState := merge st3 saveUpd

def prepUpd2 : StateUpdate := { emptyUpdate with messages := some [humanMessage "PP"] }

def st5 : AgentState := merge st4 prepUpd2

def st6 : AgentState := merge st5 (researcherUpdate "Summary" [])

def painUpd : StateUpdate := { emptyUpdate with reddit_data := some "Summary" }

def st7 : AgentState := merge st6 painUpd

def st8 : AgentState := merge st7 (ideaGeneratorUpdate "REPORT")

def demoToolCallMsg : Message := aiMessage "searching" [goodCall]

/-- A state whose latest message requests a tool call while validated_niche is
already set: exercises the router's rule-1 precedence. -/
def demoToolState : AgentState :=
  ⟨"Pets", none, some "X", none, none, none, [humanMessage "hi", demoToolCallMsg]⟩

def demoFinalMsg : Message := aiMessage "Pet Tech" []

/-- A state whose latest message is a final answer during the validation loop. -/
def demoSaveState : AgentState := ⟨"Pets", some [], none, none, none, none, [demoFinalMsg]⟩

/-- Like demoSaveState but with validated_niche present and empty. -/
def demoEmptyNicheState : AgentState :=
  ⟨"Pets", some [], some "", none, none, none, [demoFinalMsg]⟩

/-- A state with an empty message history. -/
def emptyMsgState : AgentState := ⟨"Pets", none, none, none, none, none, []⟩

/-- The step sequence of a successful scripted run, as seen by stream_events. -/
def demoStreamSteps : List (String × StateUpdate) :=
  [("market_analyst", marketAnalystUpdate []),
   ("prepare_researcher", prepUpd1),
   ("researcher", researcherUpdate "Pet Tech" []),
   ("save_niche", saveUpd),
   ("idea_generator", ideaGeneratorUpdate "REPORT")]

/-! Helper lemmas shared by several developments below. -/

/-- Merging any update onto a state with a non-empty message history keeps the
history non-empty (the messages reducer only appends). -/
theorem merge_messages_ne_nil (s : AgentState) (u : StateUpdate) (h : s.messages ≠ []) :
    (merge s u).messages ≠ [] := by
  intro hc
  simp only [merge, List.append_eq_nil] at hc
  exact h hc.1

/-- Merging an update that appends at least one message yields a non-empty
history, whatever the previous state was. -/
theorem merge_append_messages_ne_nil (s : AgentState) (u : StateUpdate) (m : Message)
    (rest : List Message) (hm : u.messages = some (m :: rest)) :
    (merge s u).messages ≠ [] := by
  simp [merge, hm]

/-- A successful prepare_researcher_node always returns a one-message update. -/
theorem prepare_update_messages (env : EnvParams) (s : AgentState) (u : StateUpdate)
    (hu : prepare_researcher_node env s = Except.ok u) :
    ∃ m, u.messages = some [m] := by
  unfold prepare_researcher_node at hu
  split at hu
  · split at hu
    · exact Except.noConfusion hu
    · cases hu
      exact ⟨_, rfl⟩
  · cases hu
    exact ⟨_, rfl⟩

/-- Along any execution of the compiled graph, every configuration other than
the two entry-side nodes (market_analyst and prepare_researcher) carries a
non-empty message history: prepare_researcher always appends one message before
researcher runs, and every later merge only appends. -/
theorem reach_messages_ne_nil (env : EnvParams) (sInit : AgentState) (c : Config)
    (h : Reach env ⟨Node.market_analyst, sInit⟩ c) :
    c.1 ≠ Node.market_analyst → c.1 ≠ Node.prepare_researcher → c.2.messages ≠ [] := by
  induction h with
  | refl =>
    intro h1 _h2
    exact absurd rfl h1
  | tail b c hr hs ih =>
    cases hs with
    | market_analyst s ns =>
      intro _h1 h2
      exact absurd rfl h2
    | prepare_researcher s u hu =>
      intro _h1 _h2
      obtain ⟨m, hm⟩ := prepare_update_messages env s u hu
      exact merge_append_messages_ne_nil s u m [] hm
    | researcher s cc tcs lbl nxt hr2 ht =>
      intro _h1 _h2
      exact merge_append_messages_ne_nil s (researcherUpdate cc tcs) (aiMessage cc tcs) [] rfl
    | call_tool s u hu =>
      intro _h1 _h2
      exact merge_messages_ne_nil s u (ih (fun hx => Node.noConfusion hx) (fun hx => Node.noConfusion hx))
    | save_niche s u hu =>
      intro _h1 h2
      exact absurd rfl h2
    | save_pain_points s u hu =>
      intro _h1 _h2
      exact merge_messages_ne_nil s u (ih (fun hx => Node.noConfusion hx) (fun hx => Node.noConfusion hx))
    | idea_generator s r =>
      intro _h1 _h2
      exact merge_messages_ne_nil s (ideaGeneratorUpdate r) (ih (fun hx => Node.noConfusion hx) (fun hx => Node.noConfusion hx))

/-- The dispatch loop, request by request, when every requested name is
registered: each request contributes exactly one ToolMessage built from its own
invocation, in order. -/
theorem dispatch_forall2 (tools : List Tool) (tcs : List ToolCall) :
    (∀ tc ∈ tcs, (find_tool tools tc.name).isSome) →
    List.Forall₂ (fun tc m => ∃ t, find_tool tools tc.name = some t ∧
      m = toolMessage (runTool t tc) tc.id ∧ m.tool_call_id = some tc.id)
      tcs (dispatch tools tcs) := by
  induction tcs with
  | nil =>
    intro _
    exact List.Forall₂.nil
  | cons tc rest ih =>
    intro h
    have htc : (find_tool tools tc.name).isSome := h tc (by simp)
    obtain ⟨t, ht⟩ := Option.isSome_iff_exists.mp htc
    simp only [dispatch, ht]
    exact List.Forall₂.cons ⟨t, ht, rfl, rfl⟩ (ih (fun x hx => h x (List.mem_cons_of_mem _ hx)))

/-- The last event of a list of events followed by one trailing marker. -/
theorem getLast_append_single {α : Type} (l : List α) (a : α) :
    (l ++ [a]).getLast? = some a := by
  rw [List.getLast?_append_cons]
  rfl

/-! Claim theorems. -/

/-- C1: for every state whose latest message carries at least one pending
tool-invocation request, both routers (src/app.py and src/agent.py) return the
tool-dispatch label "call_tool", regardless of every other state field,
validated_niche included. -/
theorem c1_router_tool_priority (s : AgentState) (m : Message)
    (hlast : s.messages.getLast? = some m) (hpend : pendingToolCalls m = true) :
    router s = Except.ok "call_tool" ∧ Agent.router s = Except.ok "call_tool" := by
  refine ⟨?_, ?_⟩ <;> simp [router, Agent.router, hlast, hpend]

/-- C1 witness: a concrete state with validated_niche set and a pending tool
call still routes to "call_tool". -/
theorem c1_router_tool_priority_witness :
    router demoToolState = Except.ok "call_tool" ∧
    Agent.router demoToolState = Except.ok "call_tool" :=
  c1_router_tool_priority demoToolState demoToolCallMsg (by decide) (by decide)

/-- C2: the claim says that after save_validated_niche_node and the merge of its
partial update the messages sequence is empty.  The node's own docstring and the
`# Clear messages` comment say the same, but the `operator.add` reducer APPENDS
the returned `[]`, so the merged history is exactly the old one, which is
non-empty (the node just read its last element): the code contradicts its own
documentation.  Evaluated at the failing input demoSaveState. -/
theorem c2_save_node_does_not_clear_messages :
    save_validated_niche_node demoSaveState = Except.ok saveUpd ∧
    saveUpd.messages = some [] ∧
    (merge demoSaveState saveUpd).messages = demoSaveState.messages ∧
    demoSaveState.messages ≠ [] :=
  ⟨rfl, rfl, rfl, by decide⟩

/-- C3 counterexample: a batch consisting of one request for an unregistered
tool produces an EMPTY result list — no error record naming the unknown tool is
ever appended, contradicting the claim that the dispatcher synthesizes one. -/
theorem c3_unknown_tool_counterexample :
    find_tool demoTools unknownCall.name = none ∧
    dispatch demoTools [unknownCall] = [] :=
  ⟨rfl, rfl⟩

/-- C3 amended: a request whose tool name is absent from the registry is
silently dropped — the dispatcher appends no result record for it and
continues with the remaining requests; the run itself is not aborted. -/
theorem c3_unknown_tool_skipped (tools : List Tool) (tc : ToolCall) (tcs : List ToolCall)
    (h : find_tool tools tc.name = none) :
    dispatch tools (tc :: tcs) = dispatch tools tcs := by
  simp [dispatch, h]

/-- C3 witness: the unknown-tool request contributes nothing to a concrete batch. -/
theorem c3_unknown_tool_skipped_witness :
    dispatch demoTools (unknownCall :: demoCalls) = dispatch demoTools demoCalls :=
  c3_unknown_tool_skipped demoTools unknownCall demoCalls rfl

/-! A concrete scripted run of the compiled graph in which the decomposer
parses zero sub-topics.  It proceeds through both loops and terminates with a
final report, which settles C4 and provides the reachable configuration used by
the C10 witness. -/

theorem step1 : Step demoEnv ⟨Node.market_analyst, st0⟩ ⟨Node.prepare_researcher, st1⟩ :=
  Step.market_analyst st0 []

theorem step2 : Step demoEnv ⟨Node.prepare_researcher, st1⟩ ⟨Node.researcher, st2⟩ :=
  Step.prepare_researcher st1 prepUpd1 (by rfl)

theorem step3 : Step demoEnv ⟨Node.researcher, st2⟩ ⟨Node.save_niche, st3⟩ :=
  Step.researcher st2 "Pet Tech" [] "save_niche" Node.save_niche (by rfl) (by rfl)

theorem step4 : Step demoEnv ⟨Node.save_niche, st3⟩ ⟨Node.prepare_researcher, st4⟩ :=
  Step.save_niche st3 saveUpd (by rfl)

theorem step5 : Step demoEnv ⟨Node.prepare_researcher, st4⟩ ⟨Node.researcher, st5⟩ :=
  Step.prepare_researcher st4 prepUpd2 (by rfl)

theorem step6 : Step demoEnv ⟨Node.researcher, st5⟩ ⟨Node.save_pain_points, st6⟩ :=
  Step.researcher st5 "Summary" [] "save_pain_points" Node.save_pain_points (by rfl) (by rfl)

theorem step7 : Step demoEnv ⟨Node.save_pain_points, st6⟩ ⟨Node.idea_generator, st7⟩ :=
  Step.save_pain_points st6 painUpd (by rfl)

theorem step8 : Step demoEnv ⟨Node.idea_generator, st7⟩ ⟨Node.terminal, st8⟩ :=
  Step.idea_generator st7 "REPORT"

theorem reach_to_save : Reach demoEnv ⟨Node.market_analyst, st0⟩ ⟨Node.save_niche, st3⟩ :=
  Reach.tail _ _ (Reach.tail _ _ (Reach.tail _ _ Reach.refl step1) step2) step3

theorem reach_full : Reach demoEnv ⟨Node.market_analyst, st0⟩ ⟨Node.terminal, st8⟩ :=
  Reach.tail _ _
    (Reach.tail _ _
      (Reach.tail _ _
        (Reach.tail _ _
          (Reach.tail _ _ reach_to_save step4) step5) step6) step7) step8

/-- C4 counterexample: the decomposer parses zero sub-topics, yet the run takes
a normal step into prepare_researcher carrying `sub_niches = []`, and from there
a complete execution reaches the terminal sentinel with a produced final_report
— the claimed immediate precondition-failure abort does not exist in the code,
and final_report is produced. -/
theorem c4_empty_subtopics_counterexample :
    Step demoEnv ⟨Node.market_analyst, st0⟩ ⟨Node.prepare_researcher, st1⟩ ∧
    st1.sub_niches = some [] ∧
    Reach demoEnv ⟨Node.market_analyst, st0⟩ ⟨Node.terminal, st8⟩ ∧
    st8.final_report = some "REPORT" :=
  ⟨step1, rfl, reach_full, rfl⟩

/-- C4 amended: when market_analyst_node parses zero sub-topics it returns an
ordinary partial update (it performs no emptiness check and raises no error),
and the run continues into prepare_researcher with an empty sub_topics list. -/
theorem c4_empty_subtopics_run_continues (env : EnvParams) (s : AgentState) :
    Step env ⟨Node.market_analyst, s⟩
      ⟨Node.prepare_researcher, merge s (marketAnalystUpdate [])⟩ ∧
    (merge s (marketAnalystUpdate [])).sub_niches = some [] :=
  ⟨Step.market_analyst s [], rfl⟩

/-- C5: when every requested tool name is registered, the dispatch loop returns
exactly one result record per request, in the original order, each tagged with
the originating request's id, and each record's content is determined by that
request's own invocation alone (runTool: the tool's real output when it
returns, the synthesized error string when it raises) — so one failing
invocation affects only its own record and never interrupts the rest. -/
theorem c5_dispatch_per_request (tools : List Tool) (tcs : List ToolCall)
    (h : ∀ tc ∈ tcs, (find_tool tools tc.name).isSome) :
    (dispatch tools tcs).length = tcs.length ∧
    List.Forall₂ (fun tc m => ∃ t, find_tool tools tc.name = some t ∧
      m = toolMessage (runTool t tc) tc.id ∧ m.tool_call_id = some tc.id)
      tcs (dispatch tools tcs) := by
  have h2 := dispatch_forall2 tools tcs h
  exact ⟨h2.length_eq.symm, h2⟩

/-- C5 witness: a concrete three-request batch (second tool raises) yields
exactly three records. -/
theorem c5_dispatch_per_request_witness :
    (dispatch demoTools demoCalls).length = demoCalls.length :=
  (c5_dispatch_per_request demoTools demoCalls (by decide)).1

/-- C6: for every state where validated_niche is unset or empty and the latest
message carries no pending tool calls, both routers return the validation-save
label "save_niche". -/
theorem c6_router_save_niche (s : AgentState) (m : Message)
    (hlast : s.messages.getLast? = some m) (hnp : pendingToolCalls m = false)
    (hv : truthy s.validated_niche = false) :
    router s = Except.ok "save_niche" ∧ Agent.router s = Except.ok "save_niche" := by
  refine ⟨?_, ?_⟩ <;> simp [router, Agent.router, hlast, hnp, hv]

/-- C6 witness: a concrete state with validated_niche present but empty and a
final answer as its latest message routes to "save_niche". -/
theorem c6_router_save_niche_witness :
    router demoEmptyNicheState = Except.ok "save_niche" ∧
    Agent.router demoEmptyNicheState = Except.ok "save_niche" :=
  c6_router_save_niche demoEmptyNicheState demoFinalMsg (by decide) (by decide) (by decide)

/-- C7 counterexample: in a concrete successful run the stream's final event is
the bare done marker, which carries no final_report — the report is carried by
an earlier (idea_generator) event of the same stream, not by the final event as
the claim states. -/
theorem c7_final_event_counterexample :
    (streamEvents demoStreamSteps none).getLast? = some Event.done ∧
    carriesFinalReport Event.done = false ∧
    (streamEvents demoStreamSteps none).any carriesFinalReport = true :=
  ⟨by decide, rfl, by decide⟩

/-- C7 amended: the stream always ends with a distinguished marker — the error
marker carrying the exception's message when the run aborted, and the bare
done completion marker when it succeeded; the completed final_report is carried
by the idea_generator step event emitted just before the done marker (its data
passes through the bookkeeping filter unchanged), not by the final event. -/
theorem c7_stream_final_markers (steps : List (String × StateUpdate)) (e : String)
    (d : StateUpdate) :
    (streamEvents steps none).getLast? = some Event.done ∧
    (streamEvents steps (some e)).getLast? = some (Event.error e) ∧
    eventFor ("idea_generator", d) = Event.step "idea_generator" d := by
  refine ⟨?_, ?_, ?_⟩
  · exact getLast_append_single _ _
  · exact getLast_append_single _ _
  · simp [eventFor]

/-- C8: merging the empty partial update returns a state equal to the original:
fields absent from the update are untouched, and appending the absent messages
contribution is appending nothing. -/
theorem c8_merge_empty_update (s : AgentState) : merge s emptyUpdate = s := by
  cases s
  simp [merge, emptyUpdate, overwrite]

/-- C9: messages is append-only under merge — for every node output the
pre-merge history is a prefix of the post-merge history (so no update can
shorten, replace or reorder it), and an update whose messages entry is the
empty list leaves the history exactly unchanged. -/
theorem c9_messages_append_only (s : AgentState) (u : StateUpdate) :
    (merge s u).messages = s.messages ++ u.messages.getD [] ∧
    s.messages <+: (merge s u).messages ∧
    (merge s { emptyUpdate with messages := some [] }).messages = s.messages := by
  refine ⟨rfl, ⟨u.messages.getD [], rfl⟩, ?_⟩
  simp [merge]

/-- C10: the router (both variants), the tool-dispatch node and the two save
nodes index `state['messages'][-1]` unguarded, so on an empty message history
each raises IndexError; and along any execution of the compiled graph from the
market_analyst entry, every configuration at call_tool, save_niche or
save_pain_points has a non-empty history (prepare_researcher always appends a
message before researcher runs, and merges only append), so the IndexError
branch is unreachable there. -/
theorem c10_last_message_precondition (env : EnvParams) :
    (∀ s : AgentState, s.messages = [] →
      router s = Except.error PyErr.indexError ∧
      Agent.router s = Except.error PyErr.indexError ∧
      call_tool_node env s = Except.error PyErr.indexError ∧
      save_validated_niche_node s = Except.error PyErr.indexError ∧
      save_pain_points_node s = Except.error PyErr.indexError) ∧
    (∀ (sInit : AgentState) (c : Config),
      Reach env ⟨Node.market_analyst, sInit⟩ c →
      (c.1 = Node.call_tool ∨ c.1 = Node.save_niche ∨ c.1 = Node.save_pain_points) →
      c.2.messages ≠ []) := by
  constructor
  · intro s hs
    refine ⟨?_, ?_, ?_, ?_, ?_⟩ <;>
      simp [router, Agent.router, call_tool_node, save_validated_niche_node,
        save_pain_points_node, hs]
  · intro sInit c hreach hc
    refine reach_messages_ne_nil env sInit c hreach ?_ ?_ <;>
      rcases hc with h | h | h <;> rw [h] <;> intro hx <;> exact Node.noConfusion hx

/-- C10 witness: the empty-history state makes the router raise, and the
scripted run's save_niche configuration has a non-empty history. -/
theorem c10_last_message_precondition_witness :
    router emptyMsgState = Except.error PyErr.indexError ∧ st3.messages ≠ [] :=
  ⟨((c10_last_message_precondition demoEnv).1 emptyMsgState rfl).1,
   (c10_last_message_precondition demoEnv).2 st0 ⟨Node.save_niche, st3⟩ reach_to_save
     (Or.inr (Or.inl rfl))⟩

end IdeaGen
